import Mathlib

/-!
Shallow embedding of the TeraBox URL-checker service, translated from the two
sibling JavaScript implementations in this repository:
  - variant A: `src/index.js`
  - variant B: `src/unnamed/part_000`
Outbound HTTP calls are modelled as oracles (`FetchOutcome`-valued functions):
the code under verification only inspects the transport outcome and the parsed
JSON body, so each call site receives the outcome as data.  Each `checkUrl`
embedding additionally returns the trace of provider invocations it performs
(identifier and cookie actually sent), so that claims about "what is sent" and
"when the fallback is invoked" are statable.
-/

namespace TeraCheck

/-- JavaScript `a || b` on strings: `""` is falsy. -/
def jsOr (a b : String) : String := if a = "" then b else a

/-- JavaScript `String.prototype.startsWith`, modelled on the character list. -/
def strStartsWith (s pre : String) : Bool := pre.data.isPrefixOf s.data

/-- Whether `pat` occurs as a contiguous substring, modelling `RegExp.test`
with a fixed literal alternative. -/
def hasSub (pat : List Char) : List Char → Bool
  | [] => pat.isPrefixOf []
  | c :: rest => pat.isPrefixOf (c :: rest) || hasSub pat rest

/-- Split at the first occurrence of `sep`, returning the part before and the
part after; `none` when `sep` does not occur. -/
def splitOnce (sep : List Char) : List Char → Option (List Char × List Char)
  | [] => none
  | c :: rest =>
    if sep.isPrefixOf (c :: rest) then some ([], (c :: rest).drop sep.length)
    else
      match splitOnce sep rest with
      | some pr => some (c :: pr.1, pr.2)
      | none => none

/-- Split on every occurrence of the character `sep`. -/
def splitAll (sep : Char) : List Char → List (List Char)
  | [] => [[]]
  | c :: rest =>
    if c == sep then [] :: splitAll sep rest
    else
      match splitAll sep rest with
      | [] => [[c]]
      | g :: gs => (c :: g) :: gs

/-- Leftmost match of a regex of the form `pre([^stop]+)`: scan left to right,
at each position require the literal `pre` followed by at least one character
not satisfying `stop`; the capture is the maximal such run.  Models the two
extraction regexes of the source. -/
def findCapture (pre : List Char) (stop : Char → Bool) : List Char → Option (List Char)
  | [] => none
  | c :: rest =>
    if pre.isPrefixOf (c :: rest) then
      if (((c :: rest).drop pre.length).takeWhile (fun x => !stop x)).isEmpty then
        findCapture pre stop rest
      else some (((c :: rest).drop pre.length).takeWhile (fun x => !stop x))
    else findCapture pre stop rest

/-- Model of the parsed components of a WHATWG URL, as used by the source
(`scheme://userinfo@hostname:port/path?search#hash`). -/
structure URLRec where
  scheme : String
  userinfo : Option String
  hostname : String
  port : Option String
  path : String
  search : String
  hash : String
deriving DecidableEq

/-- Model of the JS `new URL(s)` constructor on the fragment of URL syntax the
service receives: requires a nonempty scheme, the literal `://`, and a nonempty
host; components are kept verbatim.  `none` models the constructor throwing. -/
def parseURL (s : String) : Option URLRec :=
  match splitOnce "://".data s.data with
  | none => none
  | some pr =>
    if pr.1.isEmpty then none
    else
      let rest := pr.2
      let authority := rest.takeWhile (fun c => !(c == '/' || c == '?' || c == '#'))
      let afterAuth := rest.drop authority.length
      let uihp : Option (List Char) × List Char :=
        match splitOnce ['@'] authority with
        | some q => (some q.1, q.2)
        | none => (none, authority)
      let hp : List Char × Option (List Char) :=
        match splitOnce [':'] uihp.2 with
        | some q => (q.1, some q.2)
        | none => (uihp.2, none)
      if hp.1.isEmpty then none
      else
        let path := afterAuth.takeWhile (fun c => !(c == '?' || c == '#'))
        let afterPath := afterAuth.drop path.length
        let search := afterPath.takeWhile (fun c => !(c == '#'))
        let hash := afterPath.drop search.length
        some {
          scheme := String.mk pr.1
          userinfo := uihp.1.map String.mk
          hostname := String.mk hp.1
          port := hp.2.map String.mk
          path := String.mk path
          search := String.mk search
          hash := String.mk hash
        }

/-- Model of `URL.prototype.toString`: re-serialize the components. -/
def URLRec.toString (u : URLRec) : String :=
  u.scheme ++ "://"
    ++ (match u.userinfo with | some x => x ++ "@" | none => "")
    ++ u.hostname
    ++ (match u.port with | some p => ":" ++ p | none => "")
    ++ u.path ++ u.search ++ u.hash

/-- Model of `url.searchParams.get(key)` (first value wins; a key with no `=`
has value `""`); `searchParams.has` is `Option.isSome` of this. -/
def getParam (u : URLRec) (key : String) : Option String :=
  let qs : List Char :=
    match u.search.data with
    | '?' :: r => r
    | r => r
  ((splitAll '&' qs).filterMap (fun p =>
      match splitOnce ['='] p with
      | some kv => if kv.1 = key.data then some (String.mk kv.2) else none
      | none => if p = key.data then some "" else none)).head?

/-- `DEFAULT_HOST` from both variants. -/
def DEFAULT_HOST : String := "dm.nephobox.com"

/-- `TERABOX_DOMAINS` from `src/unnamed/part_000` lines 12-23, verbatim. -/
def TERABOX_DOMAINS : List String :=
  ["terafileshare.com", "www.terafileshare.com",
   "terabox.com", "www.terabox.com",
   "terabox.club", "www.terabox.club",
   "teraboxlink.com", "4funbox.com", "www.4funbox.com",
   "terasharelink.com", "1024terabox.com", "www.1024terabox.com",
   "terabox.app", "www.terabox.app", "terabox.fun",
   "1024tera.com", "1024tera.co", "1024box.com",
   "teraboxshare.com", "teraboxapp.com", "momerybox.com",
   "4funbox.co", "mirrobox.com", "nephobox.com",
   "freeterabox.com", "tibibox.com"]

/-- `convertToDefaultHost` from `src/unnamed/part_000` lines 37-48: parse the
URL; if its hostname is in the alias list, replace the hostname and
re-serialize; on a parse failure or an unlisted hostname return the input. -/
def convertToDefaultHost (url : String) (defaultHost : String) : String :=
  match parseURL url with
  | none => url
  | some urlObj =>
    if TERABOX_DOMAINS.contains urlObj.hostname then
      URLRec.toString { urlObj with hostname := defaultHost }
    else url

/-- The regex `/\/s\/([^\/\?&]+)/` from both variants. -/
def matchS (s : String) : Option String :=
  (findCapture "/s/".data (fun c => c == '/' || c == '?' || c == '&') s.data).map String.mk

/-- The regex `/surl=([^&]+)/` from `src/unnamed/part_000` line 107. -/
def matchSurl (s : String) : Option String :=
  (findCapture "surl=".data (fun c => c == '&') s.data).map String.mk

/-- The leading-`'1'` normalization shared by both variants:
`s.startsWith('1') && s.length > 1 ? s.substring(1) : s`. -/
def stripOne (s : String) : String :=
  if strStartsWith s "1" && decide (1 < s.length) then String.mk (s.data.drop 1) else s

/-- Short-link extraction of variant A (`src/index.js` lines 67-81): parse the
URL (failure → "Invalid URL format"); prefer the `surl` query parameter, else
the `/s/<token>` regex on the raw string; a missing or falsy (empty) candidate
→ "Could not parse Short URL". -/
def extractCandidateA (url : String) : Except String String :=
  match parseURL url with
  | none => Except.error "Invalid URL format"
  | some urlObj =>
    match (if (getParam urlObj "surl").isSome then getParam urlObj "surl" else matchS url) with
    | none => Except.error "Could not parse Short URL"
    | some s => if s = "" then Except.error "Could not parse Short URL" else Except.ok s

/-- Short-link extraction of variant B (`src/unnamed/part_000` lines 103-116):
normalize the host, then try `surl=([^&]+)` (used unchanged), else
`/s/<token>` with the leading-`'1'` strip applied to the raw token. -/
def extractB (url : String) (host : String) : Option String :=
  match matchSurl (convertToDefaultHost url host) with
  | some v => some v
  | none => (matchS (convertToDefaultHost url host)).map stripOne

/-- One entry of the provider's JSON `list` field, with the fields the code
reads; `errmsg` absent is modelled as `""` (both are JS-falsy). -/
structure RawFile where
  server_filename : String
  size : Int
  isdir : Int
deriving DecidableEq

/-- The provider's JSON response body as the code reads it: `errno`, optional
`errmsg` (`""` models absent), optional `list`. -/
structure ApiResponse where
  errno : Int
  errmsg : String
  list : Option (List RawFile)
deriving DecidableEq

/-- Outcome of one outbound `fetch`: the promise rejected (network error / any
thrown exception), the response was non-2xx (`!response.ok`), or a 2xx response
with a parsed JSON body. -/
inductive FetchOutcome
  | netError (msg : String)
  | httpError
  | ok (body : ApiResponse)

/-- The `{success, data?, errno?, error?}` result object built by the three
fetch wrappers. -/
inductive ProviderRes
  | success (data : ApiResponse)
  | failure (errno : Option Int) (error : String)
deriving DecidableEq

def ProviderRes.isSuccess : ProviderRes → Bool
  | .success _ => true
  | .failure _ _ => false

/-- `fetchShortUrlInfo` from `src/index.js` lines 30-56, as a function of the
transport outcome: 2xx with `errno === 0` → success; 2xx otherwise → failure
with `errmsg || 'API error'`; non-2xx → `'Request failed'`; thrown →
`'Network error: ' + message`. -/
def fetchShortUrlInfoA : FetchOutcome → ProviderRes
  | .ok data =>
    if data.errno = 0 then .success data
    else .failure (some data.errno) (jsOr data.errmsg "API error")
  | .httpError => .failure none "Request failed"
  | .netError msg => .failure none ("Network error: " ++ msg)

/-- `fetchShortUrlInfo` from `src/unnamed/part_000` lines 51-76: same as
variant A except a thrown error yields the fixed message `'Network error'`. -/
def fetchShortUrlInfoB : FetchOutcome → ProviderRes
  | .ok data =>
    if data.errno = 0 then .success data
    else .failure (some data.errno) (jsOr data.errmsg "API error")
  | .httpError => .failure none "Request failed"
  | .netError _ => .failure none "Network error"

/-- `fetchShareListFallback` from `src/unnamed/part_000` lines 79-98. -/
def fetchShareListFallback : FetchOutcome → ProviderRes
  | .ok data =>
    if data.errno = 0 then .success data
    else .failure (some data.errno) (jsOr data.errmsg "Fallback error")
  | .httpError => .failure none "Fallback failed"
  | .netError _ => .failure none "Network error"

/-- The `{name, size, isdir}` object both variants build per list entry. -/
structure FileEntry where
  name : String
  size : Int
  isdir : Int
deriving DecidableEq

/-- The per-entry mapping `f => ({name: f.server_filename, size: f.size,
isdir: f.isdir})` shared by both variants. -/
def toFileEntry (f : RawFile) : FileEntry :=
  { name := f.server_filename, size := f.size, isdir := f.isdir }

/-- The externally observable result object of `checkUrl`: either a
`{exists, total_files, files}` object or a `{exists:false, error}` object. -/
inductive CheckResult
  | withFiles (ex : Bool) (total_files : Nat) (files : List FileEntry)
  | failure (error : String)
deriving DecidableEq

/-- The `exists` field of a `CheckResult` (always `false` on the error shape). -/
def CheckResult.existsFlag : CheckResult → Bool
  | .withFiles b _ _ => b
  | .failure _ => false

/-- One recorded outbound provider invocation: the identifier sent, and for
the primary endpoint also the Cookie header value sent. -/
inductive CallEvent
  | primary (shortUrl : String) (cookie : String)
  | fallback (shortUrl : String)
deriving DecidableEq

/-- The success-path mapping of `src/unnamed/part_000` lines 126-135 and
142-151: `exists = list.length > 0`, `total_files = list.length`, entries
mapped in order (an absent `list` field is the empty list). -/
def mapListResult (data : ApiResponse) : CheckResult :=
  CheckResult.withFiles (decide (0 < (data.list.getD []).length))
    (data.list.getD []).length ((data.list.getD []).map toFileEntry)

/-- `checkUrl` from `src/index.js` lines 62-120, with the fetch modelled by an
oracle from (sent identifier, cookie, host) to its outcome; also returns the
trace of provider invocations.  The leading-`'1'` strip (line 84) is applied
to the candidate from either extraction strategy. -/
def checkUrlA (url cookie host : String)
    (fetchO : String → String → String → FetchOutcome) : CheckResult × List CallEvent :=
  match extractCandidateA url with
  | .error e => (.failure e, [])
  | .ok shortUrl =>
    match fetchShortUrlInfoA (fetchO (stripOne shortUrl) cookie host) with
    | .success data =>
      if (data.list.getD []).length = 0 then
        (.failure "No files found", [.primary (stripOne shortUrl) cookie])
      else
        (.withFiles true (data.list.getD []).length ((data.list.getD []).map toFileEntry),
         [.primary (stripOne shortUrl) cookie])
    | .failure _ err =>
      (.failure (jsOr err "File not found or deleted"), [.primary (stripOne shortUrl) cookie])

/-- `checkUrl` from `src/unnamed/part_000` lines 101-162, with the primary and
fallback fetches modelled by oracles; also returns the invocation trace.  The
fallback runs only when the primary result is unsuccessful; when both fail the
individual error messages are discarded in favour of the fixed message. -/
def checkUrlB (url cookie host : String)
    (primO : String → String → String → FetchOutcome)
    (fbO : String → FetchOutcome) : CheckResult × List CallEvent :=
  match extractB url host with
  | none => (.failure "Invalid URL", [])
  | some s =>
    if s = "" then (.failure "Invalid URL", [])
    else
      match fetchShortUrlInfoB (primO s cookie host) with
      | .success data => (mapListResult data, [.primary s cookie])
      | .failure _ _ =>
        match fetchShareListFallback (fbO s) with
        | .success data => (mapListResult data, [.primary s cookie, .fallback s])
        | .failure _ _ =>
          (.failure "File not found or deleted", [.primary s cookie, .fallback s])

/-- The response body shapes of the `GET /` route: the static info document of
either variant, an `{error}` object, or a `CheckResult`. -/
inductive Body
  | infoDocA
  | infoDocB
  | errorMsg (error : String)
  | result (r : CheckResult)
deriving DecidableEq

/-- JS truthiness of an optional query parameter: absent and `""` are falsy. -/
def truthy : Option String → Bool
  | none => false
  | some s => !(s = "")

/-- The cookie normalization shared by both routes (`src/index.js` lines
169-172, `src/unnamed/part_000` lines 195-198): prepend `ndus=` unless the
value already starts with it. -/
def normCookie (c : String) : String :=
  if strStartsWith c "ndus=" then c else "ndus=" ++ c

/-- `req.query.host || DEFAULT_HOST` from both routes. -/
def resolveHost : Option String → String
  | none => DEFAULT_HOST
  | some h => if h = "" then DEFAULT_HOST else h

/-- The validation regex of `src/unnamed/part_000` line 201:
`/(?:terabox|tera|1024tera|4funbox|nephobox|mirrobox|freeterabox)/.test(url)`,
i.e. the URL contains at least one of the literal alternatives. -/
def teraUrlValid (u : String) : Bool :=
  hasSub "terabox".data u.data || hasSub "tera".data u.data
    || hasSub "1024tera".data u.data || hasSub "4funbox".data u.data
    || hasSub "nephobox".data u.data || hasSub "mirrobox".data u.data
    || hasSub "freeterabox".data u.data

/-- The `GET /` handler of `src/index.js` lines 136-177 as (status, body):
info document when both parameters are falsy, 400 on missing `url`, 401 on
missing `cookie`, else the pipeline result as 200. -/
def routeA (urlQ cookieQ hostQ : Option String)
    (fetchO : String → String → String → FetchOutcome) : Nat × Body :=
  if !truthy urlQ && !truthy cookieQ then (200, .infoDocA)
  else if !truthy urlQ then (400, .errorMsg "Missing 'url' parameter")
  else if !truthy cookieQ then (401, .errorMsg "Missing 'cookie' parameter")
  else
    (200, .result (checkUrlA (urlQ.getD "") (normCookie (cookieQ.getD ""))
      (resolveHost hostQ) fetchO).1)

/-- The `GET /` handler of `src/unnamed/part_000` lines 169-208 as
(status, body): info document whenever `url` is falsy, 401 on missing
`cookie`, 400 on a URL failing the domain-substring regex, else the pipeline
result as 200. -/
def routeB (urlQ cookieQ hostQ : Option String)
    (primO : String → String → String → FetchOutcome)
    (fbO : String → FetchOutcome) : Nat × Body :=
  if !truthy urlQ then (200, .infoDocB)
  else if !truthy cookieQ then (401, .errorMsg "Missing 'cookie' parameter")
  else if !teraUrlValid (urlQ.getD "") then (400, .errorMsg "Invalid TeraBox URL")
  else
    (200, .result (checkUrlB (urlQ.getD "") (normCookie (cookieQ.getD ""))
      (resolveHost hostQ) primO fbO).1)

/-! ## Helper lemmas -/

theorem data_append (s t : String) : (s ++ t).data = s.data ++ t.data := rfl

theorem isPrefixOf_append_self (l m : List Char) : l.isPrefixOf (l ++ m) = true := by
  induction l with
  | nil => simp [List.isPrefixOf]
  | cons c cs ih => simp [List.isPrefixOf, ih]

theorem strStartsWith_append (p c : String) : strStartsWith (p ++ c) p = true := by
  unfold strStartsWith
  rw [data_append]
  exact isPrefixOf_append_self p.data c.data

theorem findCapture_ne_nil (pre : List Char) (stop : Char → Bool) :
    ∀ l cap, findCapture pre stop l = some cap → cap ≠ [] := by
  intro l
  induction l with
  | nil => intro cap h; simp [findCapture] at h
  | cons c rest ih =>
    intro cap h
    rw [findCapture] at h
    split at h
    · split at h
      · exact ih cap h
      · rename_i hne
        cases h
        intro hnil
        rw [hnil] at hne
        simp at hne
    · exact ih cap h

theorem mk_ne_empty (l : List Char) (h : l ≠ []) : String.mk l ≠ "" := by
  intro he
  apply h
  have := congrArg String.data he
  simpa using this

theorem matchSurl_ne_empty (x s : String) (h : matchSurl x = some s) : s ≠ "" := by
  unfold matchSurl at h
  cases hf : findCapture "surl=".data (fun c => c == '&') x.data with
  | none => rw [hf] at h; simp at h
  | some cap =>
    rw [hf] at h
    simp at h
    rw [← h]
    exact mk_ne_empty cap (findCapture_ne_nil _ _ _ cap hf)

theorem matchS_ne_empty (x s : String) (h : matchS x = some s) : s ≠ "" := by
  unfold matchS at h
  cases hf : findCapture "/s/".data (fun c => c == '/' || c == '?' || c == '&') x.data with
  | none => rw [hf] at h; simp at h
  | some cap =>
    rw [hf] at h
    simp at h
    rw [← h]
    exact mk_ne_empty cap (findCapture_ne_nil _ _ _ cap hf)

theorem stripOne_ne_empty (s : String) (h : s ≠ "") : stripOne s ≠ "" := by
  unfold stripOne
  split
  · rename_i hcond
    have hlen : 1 < s.length := by
      rcases Bool.and_eq_true_iff.mp hcond with ⟨_, h2⟩
      exact of_decide_eq_true h2
    apply mk_ne_empty
    intro hnil
    have : (s.data.drop 1).length = 0 := by rw [hnil]; rfl
    rw [List.length_drop] at this
    have hsl : s.length = s.data.length := rfl
    omega
  · exact h

theorem extractB_ne_empty (url host s : String) (h : extractB url host = some s) : s ≠ "" := by
  unfold extractB at h
  cases hm : matchSurl (convertToDefaultHost url host) with
  | some v =>
    rw [hm] at h
    cases h
    exact matchSurl_ne_empty _ _ hm
  | none =>
    rw [hm] at h
    cases hs : matchS (convertToDefaultHost url host) with
    | none => rw [hs] at h; simp at h
    | some raw =>
      rw [hs] at h
      simp at h
      rw [← h]
      exact stripOne_ne_empty raw (matchS_ne_empty _ _ hs)

theorem checkUrlA_cases (url ck host : String)
    (fO : String → String → String → FetchOutcome) :
    (∃ e, (checkUrlA url ck host fO).1 = CheckResult.failure e) ∨
    ∃ L : List RawFile, L ≠ [] ∧
      (checkUrlA url ck host fO).1 = CheckResult.withFiles true L.length (L.map toFileEntry) := by
  cases hE : extractCandidateA url with
  | error e => exact Or.inl ⟨e, by simp [checkUrlA, hE]⟩
  | ok s =>
    cases hF : fetchShortUrlInfoA (fO (stripOne s) ck host) with
    | success data =>
      by_cases hL : (data.list.getD []).length = 0
      · exact Or.inl ⟨"No files found", by simp [checkUrlA, hE, hF, hL]⟩
      · refine Or.inr ⟨data.list.getD [], ?_, by simp [checkUrlA, hE, hF, hL]⟩
        intro hnil
        rw [hnil] at hL
        simp at hL
    | failure en er =>
      exact Or.inl ⟨jsOr er "File not found or deleted", by simp [checkUrlA, hE, hF]⟩

theorem checkUrlB_cases (url ck host : String)
    (pO : String → String → String → FetchOutcome) (fbO : String → FetchOutcome) :
    (∃ e, (checkUrlB url ck host pO fbO).1 = CheckResult.failure e) ∨
    ∃ L : List RawFile,
      (checkUrlB url ck host pO fbO).1
        = CheckResult.withFiles (decide (0 < L.length)) L.length (L.map toFileEntry) := by
  cases hE : extractB url host with
  | none => exact Or.inl ⟨"Invalid URL", by simp [checkUrlB, hE]⟩
  | some s =>
    have hne : ¬(s = "") := extractB_ne_empty url host s hE
    cases hP : fetchShortUrlInfoB (pO s ck host) with
    | success data =>
      exact Or.inr ⟨data.list.getD [], by simp [checkUrlB, hE, hne, hP, mapListResult]⟩
    | failure en er =>
      cases hFb : fetchShareListFallback (fbO s) with
      | success data =>
        exact Or.inr ⟨data.list.getD [], by simp [checkUrlB, hE, hne, hP, hFb, mapListResult]⟩
      | failure en2 er2 =>
        exact Or.inl ⟨"File not found or deleted", by simp [checkUrlB, hE, hne, hP, hFb]⟩

/-! ## Claims -/

/-- Claim C1 counterexample: in variant B (`src/unnamed/part_000`), an
identifier extracted by the `surl=` strategy that begins with `'1'` and has
length greater than 1 is NOT stripped: on the URL
`https://dm.nephobox.com/a?surl=1ab`, the candidate `"1ab"` starts with `'1'`
and has length 3, stripping would give `"ab"`, yet the outbound primary and
fallback requests both carry `"1ab"`. -/
theorem claim_C1_counterexample :
    matchSurl (convertToDefaultHost "https://dm.nephobox.com/a?surl=1ab" "dm.nephobox.com")
      = some "1ab"
    ∧ strStartsWith "1ab" "1" = true
    ∧ 1 < "1ab".length
    ∧ stripOne "1ab" = "ab"
    ∧ (checkUrlB "https://dm.nephobox.com/a?surl=1ab" "ndus=c" "dm.nephobox.com"
        (fun _ _ _ => FetchOutcome.httpError) (fun _ => FetchOutcome.httpError)).2
      = [CallEvent.primary "1ab" "ndus=c", CallEvent.fallback "1ab"] := by
  exact ⟨by decide, by decide, by decide, by decide, by decide⟩

/-- Claim C1 (amended): in variant A (`src/index.js`) the leading-`'1'`
normalization is applied to the identifier produced by either extraction
strategy before it is sent; in variant B (`src/unnamed/part_000`) it is
applied only to identifiers extracted from the `/s/<token>` path segment,
while an identifier extracted from the `surl=` parameter is sent unchanged. -/
theorem claim_C1_amended :
    (∀ (url ck host : String) (fO : String → String → String → FetchOutcome) (s : String),
        extractCandidateA url = Except.ok s →
        (checkUrlA url ck host fO).2 = [CallEvent.primary (stripOne s) ck])
    ∧ (∀ (url ck host : String) (pO : String → String → String → FetchOutcome)
          (fbO : String → FetchOutcome) (s : String),
        matchSurl (convertToDefaultHost url host) = some s →
        (checkUrlB url ck host pO fbO).2.head? = some (CallEvent.primary s ck))
    ∧ (∀ (url ck host : String) (pO : String → String → String → FetchOutcome)
          (fbO : String → FetchOutcome) (raw : String),
        matchSurl (convertToDefaultHost url host) = none →
        matchS (convertToDefaultHost url host) = some raw →
        (checkUrlB url ck host pO fbO).2.head?
          = some (CallEvent.primary (stripOne raw) ck)) := by
  refine ⟨?_, ?_, ?_⟩
  · intro url ck host fO s hE
    cases hF : fetchShortUrlInfoA (fO (stripOne s) ck host) with
    | success data =>
      by_cases hL : (data.list.getD []).length = 0 <;> simp [checkUrlA, hE, hF, hL]
    | failure en er => simp [checkUrlA, hE, hF]
  · intro url ck host pO fbO s hm
    have hE : extractB url host = some s := by simp [extractB, hm]
    have hne : ¬(s = "") := matchSurl_ne_empty _ _ hm
    cases hP : fetchShortUrlInfoB (pO s ck host) with
    | success data => simp [checkUrlB, hE, hne, hP]
    | failure en er =>
      cases hFb : fetchShareListFallback (fbO s) with
      | success d2 => simp [checkUrlB, hE, hne, hP, hFb]
      | failure e2 r2 => simp [checkUrlB, hE, hne, hP, hFb]
  · intro url ck host pO fbO raw hm hs
    have hE : extractB url host = some (stripOne raw) := by simp [extractB, hm, hs]
    have hne : ¬(stripOne raw = "") := stripOne_ne_empty _ (matchS_ne_empty _ _ hs)
    cases hP : fetchShortUrlInfoB (pO (stripOne raw) ck host) with
    | success data => simp [checkUrlB, hE, hne, hP]
    | failure en er =>
      cases hFb : fetchShareListFallback (fbO (stripOne raw)) with
      | success d2 => simp [checkUrlB, hE, hne, hP, hFb]
      | failure e2 r2 => simp [checkUrlB, hE, hne, hP, hFb]

/-- Claim C1 amended, witness: variant A strips `1abc` to `abc` from the
`/s/` strategy; variant B sends a `surl=` identifier `1ab` unchanged and
strips a `/s/` identifier `1abc` to `abc`. -/
theorem claim_C1_amended_witness :
    (checkUrlA "https://dm.nephobox.com/s/1abc" "ck" "h"
        (fun _ _ _ => FetchOutcome.httpError)).2 = [CallEvent.primary "abc" "ck"]
    ∧ (checkUrlB "https://dm.nephobox.com/a?surl=1ab" "ck" "dm.nephobox.com"
        (fun _ _ _ => FetchOutcome.httpError) (fun _ => FetchOutcome.httpError)).2.head?
      = some (CallEvent.primary "1ab" "ck")
    ∧ (checkUrlB "https://dm.nephobox.com/s/1abc" "ck" "dm.nephobox.com"
        (fun _ _ _ => FetchOutcome.httpError) (fun _ => FetchOutcome.httpError)).2.head?
      = some (CallEvent.primary "abc" "ck") := by
  refine ⟨?_, ?_, ?_⟩
  · have h := claim_C1_amended.1 "https://dm.nephobox.com/s/1abc" "ck" "h"
      (fun _ _ _ => FetchOutcome.httpError) "1abc" rfl
    exact h
  · exact claim_C1_amended.2.1 "https://dm.nephobox.com/a?surl=1ab" "ck" "dm.nephobox.com"
      (fun _ _ _ => FetchOutcome.httpError) (fun _ => FetchOutcome.httpError) "1ab" (by decide)
  · have h := claim_C1_amended.2.2 "https://dm.nephobox.com/s/1abc" "ck" "dm.nephobox.com"
      (fun _ _ _ => FetchOutcome.httpError) (fun _ => FetchOutcome.httpError) "1abc"
      (by decide) (by decide)
    exact h

/-- Claim C2: in either variant, any `CheckResult` of `checkUrl` whose
`exists` field is `true` has `files.length = total_files`. -/
theorem claim_C2 (url ck host : String)
    (fO pO : String → String → String → FetchOutcome) (fbO : String → FetchOutcome)
    (n m : Nat) (fs gs : List FileEntry) :
    ((checkUrlA url ck host fO).1 = CheckResult.withFiles true n fs → fs.length = n)
    ∧ ((checkUrlB url ck host pO fbO).1 = CheckResult.withFiles true m gs → gs.length = m) := by
  constructor
  · intro h
    rcases checkUrlA_cases url ck host fO with ⟨e, he⟩ | ⟨L, _, hW⟩
    · rw [he] at h; cases h
    · rw [hW] at h
      injection h with h1 h2 h3
      rw [← h3, ← h2]
      exact List.length_map L toFileEntry
  · intro h
    rcases checkUrlB_cases url ck host pO fbO with ⟨e, he⟩ | ⟨L, hW⟩
    · rw [he] at h; cases h
    · rw [hW] at h
      injection h with h1 h2 h3
      rw [← h3, ← h2]
      exact List.length_map L toFileEntry

/-- Claim C2, witness: both implications applied at concrete single-file
provider responses. -/
theorem claim_C2_witness :
    ([(⟨"a.txt", 10, 0⟩ : FileEntry)]).length = 1
    ∧ ([(⟨"b.txt", 5, 1⟩ : FileEntry)]).length = 1 := by
  constructor
  · exact (claim_C2 "https://dm.nephobox.com/s/abc" "ck" "h"
      (fun _ _ _ => FetchOutcome.ok ⟨0, "", some [⟨"a.txt", 10, 0⟩]⟩)
      (fun _ _ _ => FetchOutcome.httpError) (fun _ => FetchOutcome.httpError)
      1 1 [⟨"a.txt", 10, 0⟩] []).1 (by decide)
  · exact (claim_C2 "https://dm.nephobox.com/s/abc" "ck" "h"
      (fun _ _ _ => FetchOutcome.httpError)
      (fun _ _ _ => FetchOutcome.ok ⟨0, "", some [⟨"b.txt", 5, 1⟩]⟩)
      (fun _ => FetchOutcome.httpError)
      1 1 [] [⟨"b.txt", 5, 1⟩]).2 (by decide)

/-- Claim C3: in variant B, when `url` and `cookie` pass validation, the
identifier extracts, and both the primary and the fallback lookup fail, the
route answers status 200 with body `{exists:false, error:e}` where the error
message is the fixed non-empty string; `checkUrlB` is a total function, so no
exception from the modelled outbound calls escapes it, and the failure is not
an HTTP error status. -/
theorem claim_C3 (url ck : String) (hostQ : Option String)
    (pO : String → String → String → FetchOutcome) (fbO : String → FetchOutcome) (s : String)
    (hu : url ≠ "") (hc : ck ≠ "") (hv : teraUrlValid url = true)
    (hs : extractB url (resolveHost hostQ) = some s)
    (hp : (fetchShortUrlInfoB (pO s (normCookie ck) (resolveHost hostQ))).isSuccess = false)
    (hf : (fetchShareListFallback (fbO s)).isSuccess = false) :
    routeB (some url) (some ck) hostQ pO fbO
      = (200, Body.result (CheckResult.failure "File not found or deleted"))
    ∧ (CheckResult.failure "File not found or deleted").existsFlag = false
    ∧ "File not found or deleted" ≠ "" := by
  refine ⟨?_, rfl, by decide⟩
  have hne : ¬(s = "") := extractB_ne_empty _ _ _ hs
  cases hP : fetchShortUrlInfoB (pO s (normCookie ck) (resolveHost hostQ)) with
  | success data => rw [hP] at hp; simp [ProviderRes.isSuccess] at hp
  | failure en er =>
    cases hF : fetchShareListFallback (fbO s) with
    | success d => rw [hF] at hf; simp [ProviderRes.isSuccess] at hf
    | failure e2 r2 =>
      simp [routeB, truthy, hu, hc, hv, checkUrlB, hs, hne, hP, hF]

/-- Claim C3, witness: a TeraBox URL with both lookups answering non-2xx. -/
theorem claim_C3_witness :
    routeB (some "https://terabox.com/s/abc") (some "c") none
        (fun _ _ _ => FetchOutcome.httpError) (fun _ => FetchOutcome.httpError)
      = (200, Body.result (CheckResult.failure "File not found or deleted"))
    ∧ (CheckResult.failure "File not found or deleted").existsFlag = false
    ∧ "File not found or deleted" ≠ "" := by
  exact claim_C3 "https://terabox.com/s/abc" "c" none
    (fun _ _ _ => FetchOutcome.httpError) (fun _ => FetchOutcome.httpError) "abc"
    (by decide) (by decide) (by decide) (by decide) (by decide) (by decide)

/-- Claim C4: on a successful provider response with `errno = 0` whose file
list is absent or empty, the two variants return different results for the
same extracted identifier: variant A reports `{exists:false, error:"No files
found"}` while variant B reports `{exists:false, total_files:0, files:[]}`;
both have `exists = false`, and the two results are not equal. -/
theorem claim_C4 (data : ApiResponse) (h0 : data.errno = 0)
    (hl : data.list = none ∨ data.list = some []) :
    (checkUrlA "https://dm.nephobox.com/s/abc" "ndus=k" DEFAULT_HOST
        (fun _ _ _ => FetchOutcome.ok data)).1
      = CheckResult.failure "No files found"
    ∧ (checkUrlB "https://dm.nephobox.com/s/abc" "ndus=k" DEFAULT_HOST
        (fun _ _ _ => FetchOutcome.ok data) (fun _ => FetchOutcome.httpError)).1
      = CheckResult.withFiles false 0 []
    ∧ CheckResult.failure "No files found" ≠ CheckResult.withFiles false 0 []
    ∧ (CheckResult.failure "No files found").existsFlag = false
    ∧ (CheckResult.withFiles false 0 []).existsFlag = false := by
  have hEA : extractCandidateA "https://dm.nephobox.com/s/abc" = Except.ok "abc" := rfl
  have hEB : extractB "https://dm.nephobox.com/s/abc" DEFAULT_HOST = some "abc" := by decide
  have hne : ¬(("abc" : String) = "") := by decide
  have hlist : data.list.getD [] = [] := by rcases hl with hl | hl <;> simp [hl]
  refine ⟨?_, ?_, by decide, rfl, rfl⟩
  · simp [checkUrlA, hEA, fetchShortUrlInfoA, h0, hlist]
  · simp [checkUrlB, hEB, hne, fetchShortUrlInfoB, h0, hlist, mapListResult]

/-- Claim C4, witness: the conclusion at the absent-list response
`{errno:0}`. -/
theorem claim_C4_witness :
    (checkUrlA "https://dm.nephobox.com/s/abc" "ndus=k" DEFAULT_HOST
        (fun _ _ _ => FetchOutcome.ok ⟨0, "", none⟩)).1
      = CheckResult.failure "No files found"
    ∧ (checkUrlB "https://dm.nephobox.com/s/abc" "ndus=k" DEFAULT_HOST
        (fun _ _ _ => FetchOutcome.ok ⟨0, "", none⟩) (fun _ => FetchOutcome.httpError)).1
      = CheckResult.withFiles false 0 []
    ∧ CheckResult.failure "No files found" ≠ CheckResult.withFiles false 0 []
    ∧ (CheckResult.failure "No files found").existsFlag = false
    ∧ (CheckResult.withFiles false 0 []).existsFlag = false := by
  exact claim_C4 ⟨0, "", none⟩ rfl (Or.inl rfl)

/-- Claim C5: in variant B, when the primary lookup succeeds the fallback is
never invoked (the trace holds exactly the primary call); when the primary
fails and the fallback succeeds, the result is exactly the mapper applied to
the fallback payload: `exists = (length > 0)`, `total_files = length`, files
mapped entry-by-entry in order. -/
theorem claim_C5 (url ck host : String)
    (pO : String → String → String → FetchOutcome) (fbO : String → FetchOutcome) (s : String)
    (hs : extractB url host = some s) :
    ((fetchShortUrlInfoB (pO s ck host)).isSuccess = true →
        (checkUrlB url ck host pO fbO).2 = [CallEvent.primary s ck])
    ∧ (∀ (en : Option Int) (er : String) (data : ApiResponse),
        fetchShortUrlInfoB (pO s ck host) = ProviderRes.failure en er →
        fetchShareListFallback (fbO s) = ProviderRes.success data →
        (checkUrlB url ck host pO fbO).1
            = CheckResult.withFiles (decide (0 < (data.list.getD []).length))
                (data.list.getD []).length ((data.list.getD []).map toFileEntry)
          ∧ (checkUrlB url ck host pO fbO).2
            = [CallEvent.primary s ck, CallEvent.fallback s]) := by
  have hne : ¬(s = "") := extractB_ne_empty _ _ _ hs
  constructor
  · intro hsucc
    cases hP : fetchShortUrlInfoB (pO s ck host) with
    | success data => simp [checkUrlB, hs, hne, hP]
    | failure en er => rw [hP] at hsucc; simp [ProviderRes.isSuccess] at hsucc
  · intro en er data hP hF
    constructor <;> simp [checkUrlB, hs, hne, hP, hF, mapListResult]

/-- Claim C5, witness: primary non-2xx, fallback succeeding with one file;
the result is the mapped fallback data and both calls were made in order. -/
theorem claim_C5_witness :
    (checkUrlB "https://dm.nephobox.com/s/abc" "ck" "h"
        (fun _ _ _ => FetchOutcome.httpError)
        (fun _ => FetchOutcome.ok ⟨0, "", some [⟨"a.txt", 10, 0⟩]⟩)).1
      = CheckResult.withFiles true 1 [⟨"a.txt", 10, 0⟩]
    ∧ (checkUrlB "https://dm.nephobox.com/s/abc" "ck" "h"
        (fun _ _ _ => FetchOutcome.httpError)
        (fun _ => FetchOutcome.ok ⟨0, "", some [⟨"a.txt", 10, 0⟩]⟩)).2
      = [CallEvent.primary "abc" "ck", CallEvent.fallback "abc"] := by
  have h := (claim_C5 "https://dm.nephobox.com/s/abc" "ck" "h"
      (fun _ _ _ => FetchOutcome.httpError)
      (fun _ => FetchOutcome.ok ⟨0, "", some [⟨"a.txt", 10, 0⟩]⟩) "abc" (by decide)).2
      none "Request failed" ⟨0, "", some [⟨"a.txt", 10, 0⟩]⟩ (by decide) (by decide)
  exact ⟨h.1, h.2⟩

/-- Claim C6: `convertToDefaultHost` rewrites a URL whose parsed hostname is
in the alias list to the serialization with only the hostname replaced by the
target host (every other component of the parsed URL unchanged), and returns
the input unchanged both for URLs with an unlisted hostname and for
unparseable inputs; it is a total function, so no error is raised. -/
theorem claim_C6 (url h : String) :
    (∀ u : URLRec, parseURL url = some u → TERABOX_DOMAINS.contains u.hostname = true →
      convertToDefaultHost url h = URLRec.toString { u with hostname := h }
      ∧ ({ u with hostname := h } : URLRec).hostname = h
      ∧ ({ u with hostname := h } : URLRec).scheme = u.scheme
      ∧ ({ u with hostname := h } : URLRec).userinfo = u.userinfo
      ∧ ({ u with hostname := h } : URLRec).port = u.port
      ∧ ({ u with hostname := h } : URLRec).path = u.path
      ∧ ({ u with hostname := h } : URLRec).search = u.search
      ∧ ({ u with hostname := h } : URLRec).hash = u.hash)
    ∧ (∀ u : URLRec, parseURL url = some u → TERABOX_DOMAINS.contains u.hostname = false →
      convertToDefaultHost url h = url)
    ∧ (parseURL url = none → convertToDefaultHost url h = url) := by
  refine ⟨?_, ?_, ?_⟩
  · intro u hp hc
    refine ⟨?_, rfl, rfl, rfl, rfl, rfl, rfl, rfl⟩
    simp only [convertToDefaultHost, hp, hc]
    simp
  · intro u hp hc
    simp only [convertToDefaultHost, hp, hc]
    simp
  · intro hp
    simp only [convertToDefaultHost, hp]

/-- Claim C6, witness: a listed hostname is rewritten with path, query and
fragment preserved; an unlisted hostname and a malformed string pass through. -/
theorem claim_C6_witness :
    convertToDefaultHost "https://terabox.com/s/1x?q=2#f" "dm.nephobox.com"
      = URLRec.toString ⟨"https", none, "dm.nephobox.com", none, "/s/1x", "?q=2", "#f"⟩
    ∧ convertToDefaultHost "https://example.com/s/1x" "dm.nephobox.com"
      = "https://example.com/s/1x"
    ∧ convertToDefaultHost "notaurl" "dm.nephobox.com" = "notaurl" := by
  refine ⟨?_, ?_, ?_⟩
  · exact ((claim_C6 "https://terabox.com/s/1x?q=2#f" "dm.nephobox.com").1
      ⟨"https", none, "terabox.com", none, "/s/1x", "?q=2", "#f"⟩ (by decide) (by decide)).1
  · exact (claim_C6 "https://example.com/s/1x" "dm.nephobox.com").2.1
      ⟨"https", none, "example.com", none, "/s/1x", "", ""⟩ (by decide) (by decide)
  · exact (claim_C6 "notaurl" "dm.nephobox.com").2.2 (by decide)

/-- Claim C7: with both parameters absent, both variants answer 200 with their
static info document; with `url` present and `cookie` absent, both answer 401
with the missing-cookie error; with `url` absent and `cookie` present, only
variant A answers 400 with the missing-url error, while variant B answers 200
with its info document. -/
theorem claim_C7 :
    (∀ (hostQ : Option String) (fO pO : String → String → String → FetchOutcome)
        (fbO : String → FetchOutcome),
      routeA none none hostQ fO = (200, Body.infoDocA)
      ∧ routeB none none hostQ pO fbO = (200, Body.infoDocB))
    ∧ (∀ (u : String) (hostQ : Option String)
        (fO pO : String → String → String → FetchOutcome) (fbO : String → FetchOutcome),
      u ≠ "" →
      routeA (some u) none hostQ fO = (401, Body.errorMsg "Missing 'cookie' parameter")
      ∧ routeB (some u) none hostQ pO fbO = (401, Body.errorMsg "Missing 'cookie' parameter"))
    ∧ (∀ (c : String) (hostQ : Option String)
        (fO pO : String → String → String → FetchOutcome) (fbO : String → FetchOutcome),
      c ≠ "" →
      routeA none (some c) hostQ fO = (400, Body.errorMsg "Missing 'url' parameter")
      ∧ routeB none (some c) hostQ pO fbO = (200, Body.infoDocB)) := by
  refine ⟨?_, ?_, ?_⟩
  · intro hostQ fO pO fbO
    exact ⟨by simp [routeA, truthy], by simp [routeB, truthy]⟩
  · intro u hostQ fO pO fbO hu
    exact ⟨by simp [routeA, truthy, hu], by simp [routeB, truthy, hu]⟩
  · intro c hostQ fO pO fbO hc
    exact ⟨by simp [routeA, truthy, hc], by simp [routeB, truthy]⟩

/-- Claim C7, witness: the three dispatch cases at concrete parameters. -/
theorem claim_C7_witness :
    (routeA none none none (fun _ _ _ => FetchOutcome.httpError) = (200, Body.infoDocA)
      ∧ routeB none none none (fun _ _ _ => FetchOutcome.httpError)
          (fun _ => FetchOutcome.httpError) = (200, Body.infoDocB))
    ∧ (routeA (some "x") none none (fun _ _ _ => FetchOutcome.httpError)
          = (401, Body.errorMsg "Missing 'cookie' parameter")
      ∧ routeB (some "x") none none (fun _ _ _ => FetchOutcome.httpError)
          (fun _ => FetchOutcome.httpError) = (401, Body.errorMsg "Missing 'cookie' parameter"))
    ∧ (routeA none (some "y") none (fun _ _ _ => FetchOutcome.httpError)
          = (400, Body.errorMsg "Missing 'url' parameter")
      ∧ routeB none (some "y") none (fun _ _ _ => FetchOutcome.httpError)
          (fun _ => FetchOutcome.httpError) = (200, Body.infoDocB)) := by
  exact ⟨claim_C7.1 none (fun _ _ _ => FetchOutcome.httpError)
      (fun _ _ _ => FetchOutcome.httpError) (fun _ => FetchOutcome.httpError),
    claim_C7.2.1 "x" none (fun _ _ _ => FetchOutcome.httpError)
      (fun _ _ _ => FetchOutcome.httpError) (fun _ => FetchOutcome.httpError) (by decide),
    claim_C7.2.2 "y" none (fun _ _ _ => FetchOutcome.httpError)
      (fun _ _ _ => FetchOutcome.httpError) (fun _ => FetchOutcome.httpError) (by decide)⟩

/-- Claim C8: on a successful primary response with `errno = 0` and a
non-empty list, both variants return `exists = true`, `total_files` equal to
the list length, and `files` equal to the entry-by-entry, order-preserving map
copying `server_filename`, `size` and `isdir` unchanged. -/
theorem claim_C8 (data : ApiResponse) (L : List RawFile)
    (h0 : data.errno = 0) (hL : data.list = some L) (hne : L ≠ []) :
    (checkUrlA "https://dm.nephobox.com/s/abc" "ndus=k" DEFAULT_HOST
        (fun _ _ _ => FetchOutcome.ok data)).1
      = CheckResult.withFiles true L.length (L.map toFileEntry)
    ∧ (checkUrlB "https://dm.nephobox.com/s/abc" "ndus=k" DEFAULT_HOST
        (fun _ _ _ => FetchOutcome.ok data) (fun _ => FetchOutcome.httpError)).1
      = CheckResult.withFiles true L.length (L.map toFileEntry) := by
  have hEA : extractCandidateA "https://dm.nephobox.com/s/abc" = Except.ok "abc" := rfl
  have hEB : extractB "https://dm.nephobox.com/s/abc" DEFAULT_HOST = some "abc" := by decide
  have hne2 : ¬(("abc" : String) = "") := by decide
  have hpos : 0 < L.length := List.length_pos.mpr hne
  have hlen : ¬(L.length = 0) := by omega
  have hdec : decide (0 < L.length) = true := decide_eq_true hpos
  constructor
  · simp [checkUrlA, hEA, fetchShortUrlInfoA, h0, hL, hlen]
  · simp [checkUrlB, hEB, hne2, fetchShortUrlInfoB, h0, hL, mapListResult, hdec]

/-- Claim C8, witness: the spec's concrete example
`{errno:0, list:[{server_filename:"a.txt", size:10, isdir:0}]}`. -/
theorem claim_C8_witness :
    (checkUrlA "https://dm.nephobox.com/s/abc" "ndus=k" DEFAULT_HOST
        (fun _ _ _ => FetchOutcome.ok ⟨0, "", some [⟨"a.txt", 10, 0⟩]⟩)).1
      = CheckResult.withFiles true 1 [⟨"a.txt", 10, 0⟩]
    ∧ (checkUrlB "https://dm.nephobox.com/s/abc" "ndus=k" DEFAULT_HOST
        (fun _ _ _ => FetchOutcome.ok ⟨0, "", some [⟨"a.txt", 10, 0⟩]⟩)
        (fun _ => FetchOutcome.httpError)).1
      = CheckResult.withFiles true 1 [⟨"a.txt", 10, 0⟩] := by
  have h := claim_C8 ⟨0, "", some [⟨"a.txt", 10, 0⟩]⟩ [⟨"a.txt", 10, 0⟩] rfl rfl (by decide)
  exact ⟨h.1, h.2⟩

/-- Claim C9: the cookie normalization used by both routes prepends `ndus=`
exactly when the supplied value does not already start with it, and is
idempotent; variant A's route forwards the normalized cookie to the pipeline. -/
theorem claim_C9 (c : String) :
    (strStartsWith c "ndus=" = false → normCookie c = "ndus=" ++ c)
    ∧ (strStartsWith c "ndus=" = true → normCookie c = c)
    ∧ normCookie (normCookie c) = normCookie c
    ∧ (∀ (u : String) (hostQ : Option String)
        (fO : String → String → String → FetchOutcome), u ≠ "" → c ≠ "" →
        routeA (some u) (some c) hostQ fO
          = (200, Body.result (checkUrlA u (normCookie c) (resolveHost hostQ) fO).1)) := by
  refine ⟨?_, ?_, ?_, ?_⟩
  · intro h; simp [normCookie, h]
  · intro h; simp [normCookie, h]
  · by_cases h : strStartsWith c "ndus=" = true
    · simp [normCookie, h]
    · have hfalse : strStartsWith c "ndus=" = false := by simpa using h
      simp [normCookie, hfalse, strStartsWith_append]
  · intro u hostQ fO hu hc
    simp [routeA, truthy, hu, hc]

/-- Claim C9, witness: `abc123` gains the prefix, `ndus=abc123` is unchanged,
re-normalizing is the identity, and the route forwards the normalized value. -/
theorem claim_C9_witness :
    normCookie "abc123" = "ndus=" ++ "abc123"
    ∧ normCookie "ndus=abc123" = "ndus=abc123"
    ∧ normCookie (normCookie "abc123") = normCookie "abc123"
    ∧ routeA (some "u") (some "abc123") none (fun _ _ _ => FetchOutcome.httpError)
        = (200, Body.result (checkUrlA "u" (normCookie "abc123") (resolveHost none)
            (fun _ _ _ => FetchOutcome.httpError)).1) := by
  exact ⟨(claim_C9 "abc123").1 (by decide), (claim_C9 "ndus=abc123").2.1 (by decide),
    (claim_C9 "abc123").2.2.1,
    (claim_C9 "abc123").2.2.2 "u" none (fun _ _ _ => FetchOutcome.httpError)
      (by decide) (by decide)⟩

/-- Claim C10: in either variant, any `CheckResult` of `checkUrl` with
`exists = true` has a non-empty `files` sequence and `total_files ≥ 1`; a
result with `exists = true` and an empty list is unreachable. -/
theorem claim_C10 (url ck host : String)
    (fO pO : String → String → String → FetchOutcome) (fbO : String → FetchOutcome)
    (n m : Nat) (fs gs : List FileEntry) :
    ((checkUrlA url ck host fO).1 = CheckResult.withFiles true n fs → fs ≠ [] ∧ 1 ≤ n)
    ∧ ((checkUrlB url ck host pO fbO).1 = CheckResult.withFiles true m gs → gs ≠ [] ∧ 1 ≤ m) := by
  constructor
  · intro h
    rcases checkUrlA_cases url ck host fO with ⟨e, he⟩ | ⟨L, hLne, hW⟩
    · rw [he] at h; cases h
    · rw [hW] at h
      injection h with h1 h2 h3
      have hpos : 0 < L.length := List.length_pos.mpr hLne
      constructor
      · rw [← h3]
        intro hx
        rw [List.map_eq_nil_iff] at hx
        exact hLne hx
      · omega
  · intro h
    rcases checkUrlB_cases url ck host pO fbO with ⟨e, he⟩ | ⟨L, hW⟩
    · rw [he] at h; cases h
    · rw [hW] at h
      injection h with h1 h2 h3
      have hpos : 0 < L.length := of_decide_eq_true h1
      have hLne : L ≠ [] := List.length_pos.mp hpos
      constructor
      · rw [← h3]
        intro hx
        rw [List.map_eq_nil_iff] at hx
        exact hLne hx
      · omega

/-- Claim C10, witness: both implications applied at concrete single-file
responses. -/
theorem claim_C10_witness :
    (([(⟨"a.txt", 10, 0⟩ : FileEntry)]) ≠ [] ∧ 1 ≤ 1)
    ∧ (([(⟨"b.txt", 5, 1⟩ : FileEntry)]) ≠ [] ∧ 1 ≤ 1) := by
  constructor
  · exact (claim_C10 "https://dm.nephobox.com/s/abc" "ck" "h"
      (fun _ _ _ => FetchOutcome.ok ⟨0, "", some [⟨"a.txt", 10, 0⟩]⟩)
      (fun _ _ _ => FetchOutcome.httpError) (fun _ => FetchOutcome.httpError)
      1 1 [⟨"a.txt", 10, 0⟩] []).1 (by decide)
  · exact (claim_C10 "https://dm.nephobox.com/s/abc" "ck" "h"
      (fun _ _ _ => FetchOutcome.httpError)
      (fun _ _ _ => FetchOutcome.ok ⟨0, "", some [⟨"b.txt", 5, 1⟩]⟩)
      (fun _ => FetchOutcome.httpError)
      1 1 [] [⟨"b.txt", 5, 1⟩]).2 (by decide)

end TeraCheck
